import Mathlib

/-!
Verification of the health-check aggregation library
(`github.com/vitorspk/sre-backend-go`).

The repository ships its README, module file, docker fixtures and the
example `_examples/server.go`; the library core (registry, runner,
aggregator, HTTP handler) is described by the specification, so those
components are modelled from the spec (each such definition says so in
its doc comment).  The example server is embedded from
`src/_examples/server.go` directly.
-/

namespace Health

/-- Abstract execution context handed to a check function
(`context.Context` in the source language). -/
abbrev Ctx := Nat

/-- Modelled from the spec: the observable behaviour of one invocation of a
check function (`checkFn : function(context) → error-or-nil`).  A call either
returns (after some duration, with `none` for nil / `some e` for an error
string) or never returns. -/
inductive ExecOutcome where
  | returns (err : Option String) (after : Nat)
  | diverges
deriving Repr

/-- A check function: for each context, one execution behaviour. -/
abbrev CheckFn := Ctx → ExecOutcome

/-- Modelled from the spec: `CheckConfig = \x7bname, timeout (default 2s),
skipOnErr, checkFn\x7d`.  `timeout` is in nanoseconds, `none` when the
registration gives no explicit timeout; `checkFn = none` models an absent
check function (rejected by validation). -/
structure CheckConfig where
  name : String
  timeout : Option Nat := none
  skipOnErr : Bool := false
  checkFn : Option CheckFn := none

/-- Modelled from the spec: the default per-check timeout is 2 seconds
(2 * 10^9 nanoseconds). -/
def defaultTimeout : Nat := 2000000000

/-- Modelled from the spec: the timeout the runner uses for a check is the
configured one, or the 2-second default when none was given. -/
def effectiveTimeout (c : CheckConfig) : Nat :=
  c.timeout.getD defaultTimeout

/-- Modelled from the spec: per-check outcome recorded by the runner,
`status : ok|failed|timeout`. -/
inductive CheckOutcome where
  | ok
  | failed (err : String)
  | timeout
deriving DecidableEq, Repr

/-- Modelled from the spec: one collected result (`CheckResult` joined with
the check's skip flag, which the aggregator's reduction rule consults). -/
structure CollectedResult where
  name : String
  skipOnErr : Bool
  outcome : CheckOutcome
deriving DecidableEq, Repr

/-- Modelled from the spec: registration errors (duplicate name, or a
validation failure for an empty name / absent check function). -/
inductive RegError where
  | duplicateName
  | validation
deriving DecidableEq, Repr

/-- A registry is the list of registered configurations, in registration
order. -/
abbrev Registry := List CheckConfig

/-- Modelled from the spec: `register(config)` fails with a validation error
if the name is empty or the check function absent, fails with a
duplicate-name error if the name is already present, and otherwise appends
the configuration unchanged. -/
def register (reg : Registry) (c : CheckConfig) : Except RegError Registry :=
  if c.name = "" then .error .validation
  else if c.checkFn.isNone then .error .validation
  else if reg.any (fun c0 => c0.name = c.name) then .error .duplicateName
  else .ok (reg ++ [c])

/-- The registry state after a registration attempt: on failure the
registry is left as it was. -/
def registerState (reg : Registry) (c : CheckConfig) : Registry :=
  match register reg c with
  | .ok reg1 => reg1
  | .error _ => reg

/-- Modelled from the spec: one runner unit.  The unit invokes the check
function under the check's timeout; it records `ok` on a nil return, `failed`
with the returned error, or `timeout` when the deadline fires first (also
when the function never returns, and when the function is absent there is
nothing to wait for but the deadline). -/
def runOutcome (ctx : Ctx) (c : CheckConfig) : CheckOutcome :=
  match c.checkFn with
  | none => .timeout
  | some f =>
    match f ctx with
    | .diverges => .timeout
    | .returns err d =>
      if effectiveTimeout c ≤ d then .timeout
      else
        match err with
        | none => .ok
        | some e => .failed e

/-- The collected result of one unit: the configuration's name and skip
flag together with the recorded outcome. -/
def runCheck (ctx : Ctx) (c : CheckConfig) : CollectedResult :=
  ⟨c.name, c.skipOnErr, runOutcome ctx c⟩

/-- Modelled from the spec: the runner launches one unit per registered
check and returns only after every unit has completed or timed out, one
result per registry entry. -/
def run (ctx : Ctx) (reg : Registry) : List CollectedResult :=
  reg.map (runCheck ctx)

/-- A result is failing when its outcome is not ok. -/
def isFailing (r : CollectedResult) : Bool :=
  match r.outcome with
  | .ok => false
  | _ => true

/-- Modelled from the spec: the three overall status values. -/
inductive OverallStatus where
  | OK
  | PartiallyAvailable
  | Unavailable
deriving DecidableEq, Repr

/-- The error text recorded in the failures map for a non-ok outcome
(timeouts are reported with a fixed message). -/
def errorText : CheckOutcome → Option String
  | .ok => none
  | .failed e => some e
  | .timeout => some "Timeout during health check"

/-- Modelled from the spec: the failures mapping holds the error text of
every non-ok result, keyed by check name, regardless of the skip flag. -/
def failures (rs : List CollectedResult) : List (String × String) :=
  rs.filterMap (fun r => (errorText r.outcome).map (fun e => (r.name, e)))

/-- Modelled from the spec: the three-way reduction.  Any failing result
with `skipOnErr = false` forces `Unavailable`; otherwise any failing result
gives `PartiallyAvailable`; otherwise `OK`. -/
def overallStatus (rs : List CollectedResult) : OverallStatus :=
  if rs.any (fun r => isFailing r && !r.skipOnErr) then .Unavailable
  else if rs.any isFailing then .PartiallyAvailable
  else .OK

/-- Modelled from the spec: the aggregated report (timestamp and system
metrics are handed in by the environment and carried through unchanged). -/
structure AggregatedReport where
  status : OverallStatus
  failureList : List (String × String)

/-- Modelled from the spec: the aggregator reduces collected results to a
report. -/
def aggregate (rs : List CollectedResult) : AggregatedReport :=
  ⟨overallStatus rs, failures rs⟩

/-- Modelled from the spec: the serialized form of each overall status
value (`enum\x7bOK, PartiallyAvailable, Unavailable\x7d`). -/
def statusString : OverallStatus → String
  | .OK => "OK"
  | .PartiallyAvailable => "Partially Available"
  | .Unavailable => "Unavailable"

/-- Modelled from the spec: the handler's response code, 200 for
OK/PartiallyAvailable and 503 for Unavailable. -/
def httpStatusCode : OverallStatus → Nat
  | .Unavailable => 503
  | _ => 200

/-- JSON serialization of the failures mapping. -/
def serializeFailures (fs : List (String × String)) : String :=
  "\x7b" ++
    String.intercalate ","
      (fs.map (fun p => "\"" ++ p.1 ++ "\":\"" ++ p.2 ++ "\"")) ++
  "\x7d"

/-- Modelled from the spec: the fixed JSON shape
`\x7bstatus, timestamp, failures, system\x7d`; timestamp and system metrics
come from the environment. -/
def serializeReport (r : AggregatedReport) (timestamp system : String) : String :=
  "\x7b\"status\":\"" ++ statusString r.status ++
    ("\",\"timestamp\":\"" ++ timestamp ++ "\",\"failures\":" ++
      serializeFailures r.failureList ++ ",\"system\":" ++ system ++ "\x7d")

/-- Modelled from the spec: the handler synchronously triggers the runner
and the aggregator on each invocation and responds with the status code and
the serialized body. -/
def handler (ctx : Ctx) (reg : Registry) (timestamp system : String) :
    Nat × String :=
  let rep := aggregate (run ctx reg)
  (httpStatusCode rep.status, serializeReport rep timestamp system)

/-- Registering a list of configurations in order, starting from the empty
registry, stopping at the first error (as the example server would observe
errors from successive `Register` calls). -/
def registerAll (cs : List CheckConfig) : Except RegError Registry :=
  cs.foldlM register []

namespace ExampleServer

/-- From `src/_examples/server.go`: the failing custom check,
`func(context.Context) error \x7b return errors.New("failed during custom health check") \x7d`;
it returns immediately. -/
def someCustomCheckFail : CheckFn :=
  fun _ => .returns (some "failed during custom health check") 0

/-- From `src/_examples/server.go`: the succeeding custom check,
`func(context.Context) error \x7b return nil \x7d`; it returns immediately. -/
def someCustomCheckSuccess : CheckFn :=
  fun _ => .returns none 0

/-- From `src/_examples/server.go`: the seven configurations passed to
`h.Register` in `main`, in order.  The five dependency probes (HTTP,
Postgres, MySQL, RabbitMQ aliveness, MongoDB) call external services, so
their check functions are parameters.  `time.Second * 5` is 5 * 10^9
nanoseconds; `some-custom-check-success` sets neither `Timeout` nor
`SkipOnErr`, so both keep their zero values (no explicit timeout,
`skipOnErr = false`). -/
def exampleConfigs
    (httpCheck pgCheck myCheck rabbitCheck mongoCheck : CheckFn) :
    List CheckConfig :=
  [ { name := "some-custom-check-fail", timeout := some 5000000000,
      skipOnErr := true, checkFn := some someCustomCheckFail },
    { name := "some-custom-check-success",
      checkFn := some someCustomCheckSuccess },
    { name := "http-check", timeout := some 5000000000,
      skipOnErr := true, checkFn := some httpCheck },
    { name := "postgres-check", timeout := some 5000000000,
      skipOnErr := true, checkFn := some pgCheck },
    { name := "mysql-check", timeout := some 5000000000,
      skipOnErr := true, checkFn := some myCheck },
    { name := "rabbit-aliveness-check", timeout := some 5000000000,
      skipOnErr := true, checkFn := some rabbitCheck },
    { name := "mongodb-check", timeout := some 5000000000,
      skipOnErr := true, checkFn := some mongoCheck } ]

end ExampleServer

/-! ## Helper lemmas -/

/-- A result set with no failing member has overall status OK. -/
theorem overallStatus_of_all_ok (rs : List CollectedResult)
    (h : ∀ r ∈ rs, r.outcome = .ok) : overallStatus rs = .OK := by
  have h1 : rs.any (fun r => isFailing r && !r.skipOnErr) = false := by
    rw [List.any_eq_false]
    intro r hr
    simp [isFailing, h r hr]
  have h2 : rs.any isFailing = false := by
    rw [List.any_eq_false]
    intro r hr
    simp [isFailing, h r hr]
  simp [overallStatus, h1, h2]

/-- A result set with no failing member contributes nothing to the
failures mapping. -/
theorem failures_of_all_ok (rs : List CollectedResult)
    (h : ∀ r ∈ rs, r.outcome = .ok) : failures rs = [] := by
  rw [failures, List.filterMap_eq_nil_iff]
  intro r hr
  simp [errorText, h r hr]

/-- The runner result for one unit keeps the configuration's name and skip
flag. -/
theorem runCheck_name_skip (ctx : Ctx) (c : CheckConfig) :
    (runCheck ctx c).name = c.name ∧ (runCheck ctx c).skipOnErr = c.skipOnErr :=
  ⟨rfl, rfl⟩

/-! ## Claims -/

/-- C1: for every collected result set, if some non-ok result has
`skipOnErr = false`, the aggregator's overall status is `Unavailable`, no
matter what the other results are. -/
theorem claim1_nonskippable_failure_forces_unavailable
    (rs : List CollectedResult) (r : CollectedResult)
    (hmem : r ∈ rs) (hfail : isFailing r = true) (hskip : r.skipOnErr = false) :
    overallStatus rs = .Unavailable := by
  have h1 : rs.any (fun r => isFailing r && !r.skipOnErr) = true := by
    rw [List.any_eq_true]
    exact ⟨r, hmem, by simp [hfail, hskip]⟩
  simp [overallStatus, h1]

/-- Witness for C1 on a concrete result set: a skippable failure plus a
non-skippable one still aggregates to `Unavailable`. -/
theorem claim1_witness :
    overallStatus
      [⟨"a", true, .failed "x"⟩, ⟨"b", false, .failed "y"⟩] = .Unavailable :=
  claim1_nonskippable_failure_forces_unavailable _
    ⟨"b", false, .failed "y"⟩ (by simp) (by decide) (by decide)

/-- C2: a collected result set that has at least one failing result, all of
whose failing results are skippable, aggregates to `PartiallyAvailable`. -/
theorem claim2_all_skippable_failures_partially_available
    (rs : List CollectedResult)
    (hex : ∃ r ∈ rs, isFailing r = true)
    (hall : ∀ r ∈ rs, isFailing r = true → r.skipOnErr = true) :
    overallStatus rs = .PartiallyAvailable := by
  have h1 : rs.any (fun r => isFailing r && !r.skipOnErr) = false := by
    rw [List.any_eq_false]
    intro r hr hcon
    rw [Bool.and_eq_true, Bool.not_eq_true'] at hcon
    rw [hall r hr hcon.1] at hcon
    exact absurd hcon.2 (by decide)
  have h2 : rs.any isFailing = true := by
    rw [List.any_eq_true]
    obtain ⟨r, hr, hf⟩ := hex
    exact ⟨r, hr, hf⟩
  simp [overallStatus, h1, h2]

/-- Witness for C2 on a concrete result set: one ok result and one
skippable timeout give `PartiallyAvailable`. -/
theorem claim2_witness :
    overallStatus [⟨"a", false, .ok⟩, ⟨"b", true, .timeout⟩] = .PartiallyAvailable :=
  claim2_all_skippable_failures_partially_available _
    ⟨⟨"b", true, .timeout⟩, by simp, by decide⟩
    (by intro r hr hf; fin_cases hr <;> simp_all [isFailing])

/-- C3: for a registry in which every check function returns nil within its
timeout, the aggregated report is `OK` with an empty failures mapping. -/
theorem claim3_all_ok_report
    (ctx : Ctx) (reg : Registry)
    (h : ∀ c ∈ reg, ∃ f d, c.checkFn = some f ∧ f ctx = .returns none d ∧
      d < effectiveTimeout c) :
    (aggregate (run ctx reg)).status = .OK ∧
    (aggregate (run ctx reg)).failureList = [] := by
  have hok : ∀ r ∈ run ctx reg, r.outcome = .ok := by
    intro r hr
    rw [run, List.mem_map] at hr
    obtain ⟨c, hc, rfl⟩ := hr
    obtain ⟨f, d, hf, hret, hd⟩ := h c hc
    simp [runCheck, runOutcome, hf, hret, Nat.not_le.mpr hd]
  exact ⟨overallStatus_of_all_ok _ hok, failures_of_all_ok _ hok⟩

/-- Witness for C3 on a one-check registry whose check returns nil
immediately. -/
theorem claim3_witness :
    (aggregate (run 0 [⟨"ok-check", none, false,
        some (fun _ => .returns none 0)⟩])).status = .OK ∧
    (aggregate (run 0 [⟨"ok-check", none, false,
        some (fun _ => .returns none 0)⟩])).failureList = [] :=
  claim3_all_ok_report 0 _
    (by
      intro c hc
      rw [List.mem_singleton] at hc
      subst hc
      exact ⟨_, 0, rfl, rfl, by simp [effectiveTimeout, defaultTimeout]⟩)

/-- C4: the failures mapping has an entry for every non-ok result, whatever
its skip flag: the entry is keyed by the result's name and carries its
error text. -/
theorem claim4_failures_complete
    (rs : List CollectedResult) (r : CollectedResult)
    (hmem : r ∈ rs) (hfail : isFailing r = true) :
    ∃ e, errorText r.outcome = some e ∧ (r.name, e) ∈ failures rs := by
  obtain ⟨e, he⟩ : ∃ e, errorText r.outcome = some e := by
    rcases houtcome : r.outcome with _ | err
    · rw [isFailing, houtcome] at hfail
      exact absurd hfail Bool.false_ne_true
    · exact ⟨err, rfl⟩
    · exact ⟨_, rfl⟩
  refine ⟨e, he, ?_⟩
  rw [failures, List.mem_filterMap]
  exact ⟨r, hmem, by rw [he]; rfl⟩

/-- Witness for C4 on a concrete result set: a skippable failure still gets
its entry in the failures mapping. -/
theorem claim4_witness :
    ∃ e, errorText (CheckOutcome.failed "boom") = some e ∧
      ("b", e) ∈ failures [⟨"a", false, .ok⟩, ⟨"b", true, .failed "boom"⟩] :=
  claim4_failures_complete _ ⟨"b", true, .failed "boom"⟩ (by simp) (by decide)

/-- C5: the runner produces exactly one result per registered check (join
barrier, no partial result set, and the run is a total function, so it
terminates), each result keeps its check's name, and a check whose function
never returns is recorded with a timeout outcome. -/
theorem claim5_timeout_and_join_barrier (ctx : Ctx) (reg : Registry) :
    (run ctx reg).length = reg.length ∧
    ∀ c ∈ reg, runCheck ctx c ∈ run ctx reg ∧ (runCheck ctx c).name = c.name ∧
      ∀ f, c.checkFn = some f → f ctx = .diverges →
        (runCheck ctx c).outcome = .timeout := by
  refine ⟨by simp [run], fun c hc => ⟨List.mem_map_of_mem _ hc, rfl, ?_⟩⟩
  intro f hf hdiv
  simp [runCheck, runOutcome, hf, hdiv]

/-- A one-check registry whose check never returns, used to witness C5. -/
def slowCfg : CheckConfig :=
  { name := "slow", checkFn := some fun _ => .diverges }

/-- Witness for C5 on a concrete registry: the diverging check is present
in the run's results with a timeout outcome. -/
theorem claim5_witness :
    runCheck 0 slowCfg ∈ run 0 [slowCfg] ∧
    (runCheck 0 slowCfg).outcome = .timeout :=
  ⟨((claim5_timeout_and_join_barrier 0 [slowCfg]).2 slowCfg (by simp)).1,
   ((claim5_timeout_and_join_barrier 0 [slowCfg]).2 slowCfg (by simp)).2.2
     _ rfl rfl⟩

/-- C6: registering a valid configuration whose name is already present
fails with the duplicate-name error, and the registry state is unchanged
by the failed registration. -/
theorem claim6_duplicate_registration_rejected
    (reg : Registry) (c c0 : CheckConfig)
    (hmem : c0 ∈ reg) (hname : c0.name = c.name)
    (hnonempty : c.name ≠ "") (hfn : c.checkFn.isNone = false) :
    register reg c = .error .duplicateName ∧ registerState reg c = reg := by
  have hdup : (reg.any fun x => x.name = c.name) = true := by
    rw [List.any_eq_true]
    exact ⟨c0, hmem, by simp [hname]⟩
  have hreg : register reg c = .error .duplicateName := by
    rw [register, if_neg hnonempty, hfn, if_neg (by simp), if_pos hdup]
  exact ⟨hreg, by rw [registerState, hreg]⟩

/-- A valid configuration used to witness registration claims. -/
def probeA : CheckConfig :=
  { name := "probe", checkFn := some fun _ => .returns none 0 }

/-- Witness for C6: registering `probeA` on top of a registry that already
holds `probeA` is rejected and leaves the registry as it was. -/
theorem claim6_witness :
    register [probeA] probeA = .error .duplicateName ∧
    registerState [probeA] probeA = [probeA] :=
  claim6_duplicate_registration_rejected [probeA] probeA probeA
    (by simp) rfl (by decide) rfl

/-- C7: the handler runs the checks on each invocation and answers with
status code 200 when the aggregated status is OK or PartiallyAvailable and
503 when it is Unavailable, and the serialized body carries the aggregated
status string. -/
theorem claim7_handler_code_and_body
    (ctx : Ctx) (reg : Registry) (timestamp system : String) :
    (handler ctx reg timestamp system).1 =
      httpStatusCode (overallStatus (run ctx reg)) ∧
    httpStatusCode .OK = 200 ∧
    httpStatusCode .PartiallyAvailable = 200 ∧
    httpStatusCode .Unavailable = 503 ∧
    ∃ pre post, (handler ctx reg timestamp system).2 =
      pre ++ statusString (overallStatus (run ctx reg)) ++ post :=
  ⟨rfl, rfl, rfl, rfl, _, _, rfl⟩

/-- C8: the serialized overall status of every result set is one of the
three values OK, Partially Available, Unavailable, and the all-passed case
is encoded as OK and nothing else. -/
theorem claim8_status_one_of_three (rs : List CollectedResult) :
    (statusString (overallStatus rs) = "OK" ∨
     statusString (overallStatus rs) = "Partially Available" ∨
     statusString (overallStatus rs) = "Unavailable") ∧
    ((∀ r ∈ rs, r.outcome = .ok) → statusString (overallStatus rs) = "OK") := by
  constructor
  · cases overallStatus rs <;> simp [statusString]
  · intro h
    rw [overallStatus_of_all_ok rs h]
    rfl

/-- Witness for C8 on a concrete all-ok result set. -/
theorem claim8_witness :
    statusString (overallStatus [⟨"a", false, CheckOutcome.ok⟩]) = "OK" :=
  (claim8_status_one_of_three _).2 (by intro r hr; fin_cases hr; rfl)

/-- C9: a check registered without an explicit timeout runs under the
2-second default, and a successful registration appends the configuration
unchanged, leaving every previously registered configuration exactly as it
was (immutability after registration). -/
theorem claim9_default_timeout_and_immutability
    (reg reg1 : Registry) (c : CheckConfig)
    (hnotime : c.timeout = none)
    (hok : register reg c = .ok reg1) :
    effectiveTimeout c = 2000000000 ∧ reg1 = reg ++ [c] := by
  refine ⟨by rw [effectiveTimeout, hnotime]; rfl, ?_⟩
  unfold register at hok
  split at hok
  · cases hok
  · split at hok
    · cases hok
    · split at hok
      · cases hok
      · injection hok with h
        exact h.symm

/-- Witness for C9: registering `probeA` (which has no explicit timeout)
into the empty registry gives it the 2-second default and stores it
unchanged. -/
theorem claim9_witness :
    effectiveTimeout probeA = 2000000000 ∧ [probeA] = [] ++ [probeA] :=
  claim9_default_timeout_and_immutability [] [probeA] probeA rfl rfl

/-- C10: in the example server the seven registered names are pairwise
distinct, so registering them all in order succeeds (the duplicate-name
error is unreachable there); the only configuration with
`skipOnErr = false` is `some-custom-check-success`, and its check function
returns nil (immediately) for every context. -/
theorem claim10_example_registrations
    (httpCheck pgCheck myCheck rabbitCheck mongoCheck : CheckFn) :
    ((ExampleServer.exampleConfigs httpCheck pgCheck myCheck rabbitCheck
        mongoCheck).map CheckConfig.name).Nodup ∧
    ((ExampleServer.exampleConfigs httpCheck pgCheck myCheck rabbitCheck
        mongoCheck).filter (fun c => !c.skipOnErr)).map CheckConfig.name =
      ["some-custom-check-success"] ∧
    registerAll (ExampleServer.exampleConfigs httpCheck pgCheck myCheck
        rabbitCheck mongoCheck) =
      .ok (ExampleServer.exampleConfigs httpCheck pgCheck myCheck rabbitCheck
        mongoCheck) ∧
    ∀ ctx : Ctx, ExampleServer.someCustomCheckSuccess ctx =
      .returns none 0 := by
  refine ⟨?_, rfl, rfl, fun _ => rfl⟩
  simp [ExampleServer.exampleConfigs]

end Health
